import Mathlib

/-!
Verification development for the cmake-common build-orchestration helper.

The Python sources under `project/` are embedded shallowly: pure functions
become Lean functions, environment probing (operating system checks,
executable lookup on the search path, environment variables) becomes explicit
parameters, fallible code returns `Except`, and the scoped temporary build
directory becomes an explicit event trace.

The repository modules `project/platform.py`, `project/configuration.py`,
`project/linkage.py` and `project/os.py` are not part of the source snapshot;
their enumerations and predicates are modelled from the specification where
noted.
-/

namespace CmakeCommon

/-- Modelled from the spec: `project/platform.py` is missing from the source
snapshot.  Platform is the enumeration x86 / x64, with address models 32 / 64
and string forms "x86" / "x64". -/
inductive Platform where
  | x86
  | x64
deriving DecidableEq, Repr

/-- Modelled from the spec: string serialization of a Platform. -/
def Platform.toStr : Platform → String
  | .x86 => "x86"
  | .x64 => "x64"

/-- Modelled from the spec: the address model attribute (32 / 64). -/
def Platform.get_address_model : Platform → Nat
  | .x86 => 32
  | .x64 => 64

/-- Modelled from the spec: the full enumeration of platforms. -/
def Platform.all : List Platform := [.x86, .x64]

/-- Modelled from the spec: `project/configuration.py` is missing from the
source snapshot.  Configuration is the enumeration debug / release. -/
inductive Configuration where
  | debug
  | release
deriving DecidableEq, Repr

/-- Modelled from the spec: string serialization of a Configuration. -/
def Configuration.toStr : Configuration → String
  | .debug => "debug"
  | .release => "release"

/-- Modelled from the spec: the mapping to the build tool variant name. -/
def Configuration.to_boost_variant : Configuration → String
  | .debug => "debug"
  | .release => "release"

/-- Modelled from the spec: the full enumeration of configurations. -/
def Configuration.all : List Configuration := [.debug, .release]

/-- Modelled from the spec: `project/linkage.py` is missing from the source
snapshot.  Linkage is the enumeration static / shared, used both for library
linkage and runtime linkage. -/
inductive Linkage where
  | static
  | shared
deriving DecidableEq, Repr

/-- Modelled from the spec: string serialization of a Linkage. -/
def Linkage.toStr : Linkage → String
  | .static => "static"
  | .shared => "shared"

/-- Modelled from the spec: the full enumeration of linkages. -/
def Linkage.all : List Linkage := [.static, .shared]

/-! ### Path helpers (`os.path`)

Paths are plain strings with "/" as the separator.  `dirname` and `basename`
split on the last separator, as the Python `os.path` functions do on a
POSIX-style path. -/

/-- Split a character list on the separator character, keeping empty
components, as `str.split(sep)` does. -/
def splitSep (sep : Char) : List Char → List (List Char)
  | [] => [[]]
  | c :: rest =>
    let r := splitSep sep rest
    if c = sep then [] :: r
    else
      match r with
      | [] => [[c]]
      | h :: t => (c :: h) :: t

/-- Embedding of `os.path.dirname`: everything before the final separator,
empty when the path has no separator. -/
def dirname (p : String) : String :=
  String.mk (List.intercalate ['/'] (splitSep '/' p.data).dropLast)

/-- Embedding of `os.path.basename`: the final path component. -/
def basename (p : String) : String :=
  String.mk (((splitSep '/' p.data).getLast?).getD [])

/-- Embedding of `os.path.join` for two components. -/
def joinPath (a b : String) : String := a ++ "/" ++ b

/-! ### `project/boost/build.py`: BuildParameters -/

/-- Embedding of the `BuildParameters` object state after `__init__` has run
(see `project/boost/build.py`). -/
structure BuildParameters where
  boost_dir : String
  stage_dir : String
  build_dir : Option String
  platforms : List Platform
  configurations : List Configuration
  link : List Linkage
  runtime_link : Linkage
  b2_args : List String
deriving Repr

/-- Embedding of `BuildParameters.__init__`.  In Python each defaulted
parameter is either absent (None) or a possibly empty list, and both are
falsy, so `platforms or Platform.all()` replaces an omitted or empty list by
the full enumeration; an absent runtime linkage defaults to static.  The
missing `project.utils.normalize_path` is modelled as the identity on the
already-normalized path strings used here. -/
def BuildParameters.init (boost_dir : String) (build_dir : Option String)
    (platforms : List Platform) (configurations : List Configuration)
    (link : List Linkage) (runtime_link : Option Linkage)
    (b2_args : List String) : BuildParameters :=
  { boost_dir := boost_dir
    stage_dir := "stage"
    build_dir := build_dir
    platforms := if platforms.isEmpty then Platform.all else platforms
    configurations := if configurations.isEmpty then Configuration.all else configurations
    link := if link.isEmpty then Linkage.all else link
    runtime_link := runtime_link.getD Linkage.static
    b2_args := b2_args }

/-- Embedding of `BuildParameters._linkage_options`.  The current operating
system enters through the explicit `on_linux` flag (the missing
`project.utils.on_linux` probe). -/
def linkage_options (link : List Linkage) (runtime_link : Linkage)
    (on_linux : Bool) : List (Linkage × Linkage) :=
  link.map fun l =>
    if runtime_link = Linkage.static then
      if l = Linkage.shared then (l, Linkage.shared)
      else if on_linux then (l, Linkage.shared)
      else (l, runtime_link)
    else (l, runtime_link)

/-- Embedding of `BuildParameters._build_dir`. -/
def build_dir_flag (build_dir : String) : String :=
  "--build-dir=" ++ build_dir

/-- Embedding of `BuildParameters._stagedir`: the staging directory flag is
derived from the stage directory and the (platform, configuration) pair. -/
def stagedir_flag (stage_dir : String) (platform : Platform)
    (configuration : Configuration) : String :=
  "--stagedir=" ++ joinPath (joinPath stage_dir platform.toStr) configuration.toStr

/-- Embedding of `BuildParameters._link`. -/
def link_flag (link : Linkage) : String := "link=" ++ link.toStr

/-- Embedding of `BuildParameters._runtime_link`. -/
def runtime_link_flag (runtime_link : Linkage) : String :=
  "runtime-link=" ++ runtime_link.toStr

/-- Embedding of `BuildParameters._address_model`. -/
def address_model_flag (platform : Platform) : String :=
  "address-model=" ++ toString platform.get_address_model

/-- Embedding of `BuildParameters._variant`. -/
def variant_flag (configuration : Configuration) : String :=
  "variant=" ++ configuration.to_boost_variant

/-- Embedding of `BuildParameters._build_params`: one b2 argument list for a
single (platform, configuration, link, runtime-link) combination, with the
verbatim pass-through arguments appended at the end. -/
def BuildParameters.build_params (bp : BuildParameters) (build_dir : String)
    (platform : Platform) (configuration : Configuration)
    (link runtime_link : Linkage) : List String :=
  [build_dir_flag build_dir,
   stagedir_flag bp.stage_dir platform configuration,
   link_flag link,
   runtime_link_flag runtime_link,
   address_model_flag platform,
   variant_flag configuration] ++ bp.b2_args

/-- Embedding of the loop body of `BuildParameters.enum_b2_args`, with the
build directory already resolved: platforms outer, configurations middle,
linkage pairs inner. -/
def BuildParameters.enum_lists (bp : BuildParameters) (build_dir : String)
    (on_linux : Bool) : List (List String) :=
  bp.platforms.flatMap fun platform =>
    bp.configurations.flatMap fun configuration =>
      (linkage_options bp.link bp.runtime_link on_linux).map fun lr =>
        bp.build_params build_dir platform configuration lr.1 lr.2

/-! ### Scoped temporary build directory (`BuildParameters._create_build_dir`)

The `tempfile.TemporaryDirectory` context manager removes the directory on
each exit path of the `with` block, whether the body completed or raised.
The embedding records directory creation and removal as an explicit event
trace and lets the consumer of the enumeration either complete normally or
abort with an exception, modelled by an `Except` result. -/

/-- One filesystem event of the scoped build-directory resource. -/
inductive DirEvent where
  | made (name : String)
  | removed (name : String)
deriving DecidableEq, Repr

/-- Embedding of `BuildParameters._create_build_dir` run against a
continuation.  When an explicit build directory is present it is passed
through with no filesystem events.  Otherwise a temporary directory (whose
allocated name is the `temp_name` parameter) is created, the continuation
runs on it, and the removal event is recorded regardless of whether the
continuation succeeded or aborted: that is the guarantee of the
`tempfile.TemporaryDirectory` context manager. -/
def BuildParameters.create_build_dir_run {ε α : Type}
    (bp : BuildParameters) (temp_name : String)
    (k : String → Except ε α) : Except ε α × List DirEvent :=
  match bp.build_dir with
  | some d => (k d, [])
  | none => (k temp_name, [DirEvent.made temp_name, DirEvent.removed temp_name])

/-- Embedding of `BuildParameters.enum_b2_args` as consumed inside the scoped
build directory: the consumer receives the enumerated argument lists and may
succeed or abort; the returned trace holds the temporary-directory events. -/
def BuildParameters.enum_b2_args_run {ε α : Type}
    (bp : BuildParameters) (on_linux : Bool) (temp_name : String)
    (consume : List (List String) → Except ε α) : Except ε α × List DirEvent :=
  bp.create_build_dir_run temp_name fun d => consume (bp.enum_lists d on_linux)

/-- Whether a directory exists after a trace of events, starting from not
existing: the last creation or removal event for that name decides. -/
def dirExistsAfter (events : List DirEvent) (d : String) : Bool :=
  events.foldl
    (fun st e =>
      match e with
      | DirEvent.made n => if n = d then true else st
      | DirEvent.removed n => if n = d then false else st)
    false

/-! ### `project/boost/toolchain.py`

Environment probing is made explicit: `on_linux` / `on_cygwin` flags, the
`shutil.which` lookup and the `os.path.exists` probe become fields of an
environment record. -/

/-- The environmental inputs of executable resolution: the operating-system
flags from the missing `project/os.py` and the `shutil.which` /
`os.path.exists` probes.  `which exe dir` is the lookup of `exe` restricted
to `dir` when present, over the search path otherwise; `none` stands for a
falsy result. -/
structure ExeEnv where
  on_linux : Bool
  on_cygwin : Bool
  which : String → Option String → Option String
  path_exists : String → Bool

/-- The directory qualification of an executable name, as computed in
`_full_exe_name`: `os.path.dirname(exe) or None`. -/
def dirOpt (exe : String) : Option String :=
  if dirname exe = "" then none else some (dirname exe)

/-- The Cygwin adjustment inside `_full_exe_name`: when both `path` and
`path + ".exe"` exist, prefer the `.exe` version. -/
def cygAdjust (env : ExeEnv) (path : String) : String :=
  if env.on_cygwin ∧ env.path_exists path ∧ env.path_exists (path ++ ".exe")
  then path ++ ".exe" else path

/-- Embedding of `_full_exe_name`.  On Linux the name is returned as is.
Elsewhere the name is looked up (restricted to its directory when it is
directory-qualified); a falsy result raises the executable-not-found error;
otherwise the found path, Cygwin-adjusted, is returned in full when the name
was directory-qualified and as its basename when it was found on the search
path. -/
def full_exe_name (env : ExeEnv) (exe : String) : Except String String :=
  if env.on_linux then Except.ok exe
  else
    match env.which exe (dirOpt exe) with
    | none => Except.error ("executable " ++ exe ++ " could not be found")
    | some path =>
      let path := cygAdjust env path
      match dirOpt exe with
      | some _ => Except.ok path
      | none => Except.ok (basename path)

/-- Embedding of the `BoostBuildToolset` object state. -/
structure BoostBuildToolset where
  compiler : String
  version : String
  path : String
  options : List (String × String)
deriving Repr

/-- Embedding of `BoostBuildToolset.__init__`: an empty compiler name raises;
an empty path stays empty, a non-empty one is resolved through
`_full_exe_name` (which may raise); the version is the fixed tag "custom". -/
def BoostBuildToolset.init (env : ExeEnv) (compiler path : String)
    (options : List (String × String)) : Except String BoostBuildToolset :=
  if compiler = "" then
    Except.error "compiler type is required (like gcc, clang, etc.)"
  else
    (if path = "" then Except.ok "" else full_exe_name env path).map fun p =>
      { compiler := compiler, version := "custom", path := p, options := options }

/-- Embedding of `BoostBuildToolset._format_using_options`. -/
def BoostBuildToolset.format_using_options (t : BoostBuildToolset) : String :=
  String.join (t.options.map fun nv => "\n    <" ++ nv.1 ++ ">" ++ nv.2)

/-- Embedding of `BoostBuildToolset.format_using`, the `using` clause of the
generated user configuration file. -/
def BoostBuildToolset.format_using (t : BoostBuildToolset) : String :=
  let version := if t.version = "" then "" else t.version ++ " "
  let path := if t.path = "" then "" else t.path ++ " "
  "using " ++ t.compiler ++ " : " ++ version ++ ": " ++ path ++ ":"
    ++ t.format_using_options ++ "\n;"

/-- Embedding of `GCC.get_options`: the fixed warning-suppression set. -/
def GCC.get_options : List (String × String) :=
  [("cxxflags", "-Wno-deprecated-declarations"),
   ("cxxflags", "-Wno-parentheses")]

/-- Embedding of `GCC.get_toolset`: force the gcc toolset with the g++
compiler (the platform argument is unused in the source as well). -/
def GCC.get_toolset (env : ExeEnv) (_platform : Platform) :
    Except String BoostBuildToolset :=
  BoostBuildToolset.init env "gcc" "g++" GCC.get_options

/-- Embedding of `GCC.format_config` for the Boost toolchain family. -/
def GCC.format_config (t : BoostBuildToolset) : String :=
  t.format_using

/-- Embedding of the Boost-side `GCC` user-config generation pipeline
(`ConfigFile.setup`): the file contents are computed from the toolset alone.
The source computes them once per toolchain detection, before any
configuration or linkage is chosen; the two trailing arguments are exposed
here only so that their irrelevance is a statable property. -/
def GCC.config_file (env : ExeEnv) (platform : Platform)
    (_configuration : Configuration) (_linkage : Linkage) :
    Except String String :=
  (GCC.get_toolset env platform).map GCC.format_config

/-- Modelled from the spec: `project/platform.py` is missing from the source
snapshot; the base `Toolchain.b2_args` defers to `platform.b2_args`, which
per the specification contributes the architecture flag for the platform. -/
def Platform.b2_args (platform : Platform) (_configuration : Configuration) :
    List String :=
  [address_model_flag platform]

/-- Embedding of the fixed requirements block of `Clang.format_config`: the
four dependent-library flag variants keyed by debug/release and
static/shared runtime linkage, plus the Windows defines. -/
def Clang.requirements_block : String :=
  "project : requirements\n"
    ++ "    <target-os>windows:<define>_MT\n"
    ++ "    <target-os>windows,<variant>debug:<define>_DEBUG\n"
    ++ "    <target-os>windows,<runtime-link>static,<variant>debug:<cxxflags>\"-Xclang -flto-visibility-public-std -Xclang --dependent-lib=libcmtd\"\n"
    ++ "    <target-os>windows,<runtime-link>static,<variant>release:<cxxflags>\"-Xclang -flto-visibility-public-std -Xclang --dependent-lib=libcmt\"\n"
    ++ "    <target-os>windows,<runtime-link>shared,<variant>debug:<cxxflags>\"-D_DLL -Xclang --dependent-lib=msvcrtd\"\n"
    ++ "    <target-os>windows,<runtime-link>shared,<variant>release:<cxxflags>\"-D_DLL -Xclang --dependent-lib=msvcrt\"\n"
    ++ ";\n"

/-- Embedding of `Clang.format_config`: the requirements block followed by
the `using` clause of the toolset. -/
def Clang.format_config (t : BoostBuildToolset) : String :=
  Clang.requirements_block ++ t.format_using ++ "\n"

/-- Embedding of `ClangCL.b2_args` (with the base `Toolchain.b2_args`
contribution from the platform): the clang-win toolset selection and the
Windows define, and nothing else. -/
def ClangCL.b2_args (platform : Platform) (configuration : Configuration) :
    List String :=
  platform.b2_args configuration ++ ["toolset=clang-win", "define=BOOST_USE_WINDOWS_H"]

/-! ### `project/ci/appveyor/cmake.py`: the AppVeyor CI adapter

The process environment becomes an explicit partial map from variable names
to values. -/

/-- Embedding of the `Image` enumeration of recognized AppVeyor worker
images. -/
inductive Image where
  | vs2013
  | vs2015
  | vs2017
  | vs2019
deriving DecidableEq, Repr

/-- The string value of each recognized worker image. -/
def Image.toStr : Image → String
  | .vs2013 => "Visual Studio 2013"
  | .vs2015 => "Visual Studio 2015"
  | .vs2017 => "Visual Studio 2017"
  | .vs2019 => "Visual Studio 2019"

/-- Embedding of `_parse_image`: value lookup in the `Image` enumeration,
with an unsupported-image error otherwise. -/
def parse_image (s : String) : Except String Image :=
  if s = Image.vs2013.toStr then Except.ok Image.vs2013
  else if s = Image.vs2015.toStr then Except.ok Image.vs2015
  else if s = Image.vs2017.toStr then Except.ok Image.vs2017
  else if s = Image.vs2019.toStr then Except.ok Image.vs2019
  else Except.error ("unsupported AppVeyor image: " ++ s)

/-- Embedding of the `Generator` enumeration. -/
inductive Generator where
  | vs2013
  | vs2015
  | vs2017
  | vs2019
deriving DecidableEq, Repr

/-- The string value of each generator. -/
def Generator.toStr : Generator → String
  | .vs2013 => "Visual Studio 12 2013"
  | .vs2015 => "Visual Studio 14 2015"
  | .vs2017 => "Visual Studio 15 2017"
  | .vs2019 => "Visual Studio 16 2019"

/-- Embedding of `Generator.from_image`: the fixed image-to-generator lookup
table. -/
def Generator.from_image : Image → Generator
  | .vs2013 => .vs2013
  | .vs2015 => .vs2015
  | .vs2017 => .vs2017
  | .vs2019 => .vs2019

/-- Embedding of the AppVeyor `Platform` enumeration (distinct from the
project-wide `Platform`): the fixed platform-identifier lookup table. -/
inductive AVPlatform where
  | x86
  | x64
deriving DecidableEq, Repr

/-- The string value of each AppVeyor platform. -/
def AVPlatform.toStr : AVPlatform → String
  | .x86 => "Win32"
  | .x64 => "x64"

/-- Embedding of `_parse_platform`. -/
def parse_platform (s : String) : Except String AVPlatform :=
  if s = AVPlatform.x86.toStr then Except.ok AVPlatform.x86
  else if s = AVPlatform.x64.toStr then Except.ok AVPlatform.x64
  else Except.error ("unsupported AppVeyor platform: " ++ s)

/-- The process environment: a partial map from variable names to values. -/
def Env : Type := String → Option String

/-- Embedding of `_env`: read a required environment variable, raising when
it is undefined. -/
def env_get (env : Env) (name : String) : Except String String :=
  match env name with
  | none => Except.error ("undefined environment variable: " ++ name)
  | some v => Except.ok v

/-- Embedding of `_check_appveyor`: the provider sentinel variable must be
present. -/
def check_appveyor (env : Env) : Except String Unit :=
  match env "APPVEYOR" with
  | none => Except.error "not running on AppVeyor"
  | some _ => Except.ok ()

/-- Embedding of `build_appveyor` up to the hand-off to `build`: the result
is the argument vector passed to the CMake build step on success, and the
raised error otherwise.  An error value means the adapter failed before any
build step ran. -/
def build_appveyor (env : Env) (install_dir : Option String)
    (cmake_args : List String) : Except String (List String) := do
  check_appveyor env
  let configuration ← env_get env "CONFIGURATION"
  let argv := ["--build", "C:\\Projects\\build", "--configuration", configuration]
  let argv := argv ++ (match install_dir with
    | some d => ["--install", d]
    | none => [])
  let src_dir ← env_get env "APPVEYOR_BUILD_FOLDER"
  let image ← parse_image (← env_get env "APPVEYOR_BUILD_WORKER_IMAGE")
  let generator := Generator.from_image image
  let platform ← parse_platform (← env_get env "PLATFORM")
  return argv ++ ["--", src_dir, "-G", generator.toStr, "-A", platform.toStr]
    ++ cmake_args

/-! ### `project/ci/boost.py`: the keyword-argument mismatch

Python rejects a call that passes a keyword argument the callee does not
declare.  The embedding records the declared keyword parameter names of
`BuildParameters.__init__` and the keyword names used at the call site in
`build_ci`, and checks the call the way the Python runtime does. -/

/-- The keyword parameter names accepted by `BuildParameters.__init__` in
`project/boost/build.py`. -/
def buildParametersKeywords : List String :=
  ["boost_dir", "build_dir", "platforms", "configurations", "link",
   "runtime_link", "b2_args"]

/-- The keyword argument names passed to `BuildParameters` by `build_ci` in
`project/ci/boost.py` (`boost_dir` is passed positionally). -/
def ciBoostCallKeywords : List String :=
  ["platforms", "configurations", "link", "runtime_link", "toolset", "b2_args"]

/-- Python call semantics for keyword arguments: the first keyword not among
the declared parameter names raises a TypeError. -/
def checkCallKeywords (declared passed : List String) : Except String Unit :=
  match passed.find? (fun k => !(declared.contains k)) with
  | some k => Except.error ("__init__() got an unexpected keyword argument " ++ k)
  | none => Except.ok ()

/-- Boolean substring test: does `pattern` occur contiguously in `s`? -/
def hasInfix (pattern : List Char) : List Char → Bool
  | [] => pattern.isEmpty
  | c :: rest => pattern.isPrefixOf (c :: rest) || hasInfix pattern rest

/-- A substring of `a` is a substring of `a ++ b`. -/
theorem hasInfix_append_left (pattern a b : List Char)
    (h : hasInfix pattern a = true) : hasInfix pattern (a ++ b) = true := by
  induction a with
  | nil =>
    simp only [hasInfix, List.isEmpty_iff] at h
    subst h
    cases b with
    | nil => rfl
    | cons c rest => simp [hasInfix, List.isPrefixOf]
  | cons c rest ih =>
    simp only [hasInfix, Bool.or_eq_true] at h ⊢
    rcases h with h | h
    · left
      have h' : pattern <+: c :: rest := List.isPrefixOf_iff_prefix.mp h
      exact List.isPrefixOf_iff_prefix.mpr (h'.trans (List.prefix_append _ _))
    · right
      exact ih h

/-! ## Claims -/

/-- C1: for every requested (library-linkage, runtime-linkage) pair fed to
the linkage legality resolver: if runtime-linkage is static and
library-linkage is shared, or if runtime-linkage is static while on Linux,
the yielded pair has runtime-linkage forced to shared; in every other case
the requested pair is yielded unchanged.  The library-linkage component is
always the requested one, and the resolver is a total function (no error
path). -/
theorem linkage_options_resolution (link : List Linkage)
    (runtime_link : Linkage) (on_linux : Bool) :
    linkage_options link runtime_link on_linux =
      link.map fun l =>
        (l, if runtime_link = Linkage.static ∧ (l = Linkage.shared ∨ on_linux = true)
            then Linkage.shared else runtime_link) := by
  unfold linkage_options
  congr 1
  funext l
  cases runtime_link <;> cases l <;> cases on_linux <;> decide

/-- C9: the call to `BuildParameters` in the CI Boost adapter passes the
keyword argument `toolset`, which `BuildParameters.__init__` does not
declare, so the construction step always raises an unexpected-keyword
TypeError and the CI Boost build never succeeds through this path. -/
theorem ci_boost_unexpected_toolset_keyword :
    checkCallKeywords buildParametersKeywords ciBoostCallKeywords =
      Except.error "__init__() got an unexpected keyword argument toolset" := by
  rfl

/-- C10: each dimension defaults independently, with every other argument
arbitrary: a `BuildParameters` constructed with an empty (or, in Python, an
omitted — both are falsy) platforms, configurations or link list is the
very object built with the full enumeration of that one dimension, so its
expansion behaves as if the full enumeration had been requested there; and
an omitted runtime-linkage yields the object built with static.  The
defaulted field values are stated explicitly as well. -/
theorem build_parameters_defaults (boost_dir : String)
    (build_dir : Option String) (platforms : List Platform)
    (configurations : List Configuration) (link : List Linkage)
    (runtime_link : Option Linkage) (b2_args : List String) :
    BuildParameters.init boost_dir build_dir [] configurations link
        runtime_link b2_args
      = BuildParameters.init boost_dir build_dir Platform.all configurations
          link runtime_link b2_args
    ∧ BuildParameters.init boost_dir build_dir platforms [] link
        runtime_link b2_args
      = BuildParameters.init boost_dir build_dir platforms Configuration.all
          link runtime_link b2_args
    ∧ BuildParameters.init boost_dir build_dir platforms configurations []
        runtime_link b2_args
      = BuildParameters.init boost_dir build_dir platforms configurations
          Linkage.all runtime_link b2_args
    ∧ BuildParameters.init boost_dir build_dir platforms configurations link
        none b2_args
      = BuildParameters.init boost_dir build_dir platforms configurations link
          (some Linkage.static) b2_args
    ∧ (BuildParameters.init boost_dir build_dir [] configurations link
        runtime_link b2_args).platforms = Platform.all
    ∧ (BuildParameters.init boost_dir build_dir platforms [] link
        runtime_link b2_args).configurations = Configuration.all
    ∧ (BuildParameters.init boost_dir build_dir platforms configurations []
        runtime_link b2_args).link = Linkage.all
    ∧ (BuildParameters.init boost_dir build_dir platforms configurations link
        none b2_args).runtime_link = Linkage.static := by
  exact ⟨rfl, rfl, rfl, rfl, rfl, rfl, rfl, rfl⟩

/-- C2 fails as stated: with the default linkage dimension, the expansion of
a single platform and configuration produces two distinct argument lists
(link=static and link=shared) that carry the very same --stagedir value, so
the --stagedir flag is not unique across the full combination set. -/
theorem stagedir_collision_across_linkages :
    ((BuildParameters.init "boost" (some "b") [Platform.x86] [Configuration.debug]
        [] (some Linkage.shared) []).enum_lists "b" false).length = 2
    ∧ ((BuildParameters.init "boost" (some "b") [Platform.x86] [Configuration.debug]
        [] (some Linkage.shared) []).enum_lists "b" false)[0]?
      ≠ ((BuildParameters.init "boost" (some "b") [Platform.x86] [Configuration.debug]
        [] (some Linkage.shared) []).enum_lists "b" false)[1]?
    ∧ (((BuildParameters.init "boost" (some "b") [Platform.x86] [Configuration.debug]
        [] (some Linkage.shared) []).enum_lists "b" false)[0]?.getD [])[1]?
      = some "--stagedir=stage/x86/debug"
    ∧ (((BuildParameters.init "boost" (some "b") [Platform.x86] [Configuration.debug]
        [] (some Linkage.shared) []).enum_lists "b" false)[1]?.getD [])[1]?
      = some "--stagedir=stage/x86/debug" := by
  decide

/-- C2 amended: the --stagedir value is unique per (platform, configuration)
pair: two argument lists produced by `build_params` for distinct (platform,
configuration) pairs never carry the same --stagedir value, whatever their
linkage flags; lists produced for the same pair (differing only in linkage)
share it by construction. -/
theorem stagedir_injective_on_platform_configuration (bp : BuildParameters)
    (bd bd2 : String) (p1 p2 : Platform) (c1 c2 : Configuration)
    (l1 r1 l2 r2 : Linkage)
    (hstage : bp.stage_dir = "stage")
    (hne : ¬(p1 = p2 ∧ c1 = c2)) :
    (bp.build_params bd p1 c1 l1 r1)[1]? ≠ (bp.build_params bd2 p2 c2 l2 r2)[1]? := by
  have key : ∀ (q1 q2 : Platform) (d1 d2 : Configuration),
      stagedir_flag "stage" q1 d1 = stagedir_flag "stage" q2 d2 → q1 = q2 ∧ d1 = d2 := by
    intro q1 q2 d1 d2
    cases q1 <;> cases q2 <;> cases d1 <;> cases d2 <;> decide
  intro h
  simp only [BuildParameters.build_params, hstage, List.cons_append,
    List.getElem?_cons_succ, List.getElem?_cons_zero, Option.some.injEq] at h
  exact hne (key p1 p2 c1 c2 h)

/-- C7: the expansion enumerates combinations with platforms as the outer
loop, configurations as the middle loop and linkage pairs as the inner loop
(the order of the cross product (platform × configuration) × linkage), and
within each produced argument list the verbatim pass-through b2 arguments
appear last, after the build-dir, stagedir, link, runtime-link,
address-model and variant flags, in that order. -/
theorem enum_b2_args_order (bp : BuildParameters) (bd : String) (ol : Bool) :
    bp.enum_lists bd ol =
      ((bp.platforms ×ˢ bp.configurations) ×ˢ
          linkage_options bp.link bp.runtime_link ol).map
        (fun x => bp.build_params bd x.1.1 x.1.2 x.2.1 x.2.2)
    ∧ ∀ (p : Platform) (c : Configuration) (l r : Linkage),
        bp.build_params bd p c l r =
          [build_dir_flag bd, stagedir_flag bp.stage_dir p c, link_flag l,
           runtime_link_flag r, address_model_flag p, variant_flag c]
            ++ bp.b2_args := by
  constructor
  · simp [BuildParameters.enum_lists, SProd.sprod, List.product,
      List.map_flatMap, List.flatMap_map, List.flatMap_assoc, List.map_map,
      Function.comp_def]
  · intro p c l r
    rfl

/-- C4: when `build_dir` is None, the temporary build directory created
during the expansion no longer exists after the run, on every exit path
(the consumer may complete normally or abort with a propagated exception);
and when an explicit `build_dir` is supplied, no directory event occurs at
all and every produced argument list carries the explicit directory,
unchanged, in its --build-dir flag. -/
theorem temp_build_dir_lifecycle {ε α : Type} (bp : BuildParameters)
    (ol : Bool) (t : String) (consume : List (List String) → Except ε α) :
    (bp.build_dir = none →
      dirExistsAfter (bp.enum_b2_args_run ol t consume).2 t = false)
    ∧ ∀ d, bp.build_dir = some d →
        (bp.enum_b2_args_run ol t consume).2 = []
        ∧ ∀ args ∈ bp.enum_lists d ol, args[0]? = some (build_dir_flag d) := by
  constructor
  · intro h
    simp [BuildParameters.enum_b2_args_run, BuildParameters.create_build_dir_run,
      h, dirExistsAfter]
  · intro d h
    constructor
    · simp [BuildParameters.enum_b2_args_run, BuildParameters.create_build_dir_run, h]
    · intro args hmem
      simp only [BuildParameters.enum_lists, List.mem_flatMap, List.mem_map] at hmem
      obtain ⟨p, _, c, _, lr, _, rfl⟩ := hmem
      rfl

/-- C4 witness: a run with no explicit build directory and an aborting
consumer leaves no temporary directory behind, and a run with an explicit
build directory that completes normally produces no directory event. -/
theorem temp_build_dir_lifecycle_witness :
    dirExistsAfter
      ((BuildParameters.init "boost" none [] [] [] none []).enum_b2_args_run
          false "tmp123" (fun _ => (Except.error 0 : Except Nat Nat))).2
      "tmp123" = false
    ∧ ((BuildParameters.init "boost" (some "bdir") [] [] [] none []).enum_b2_args_run
          false "tmp123" (fun ls => (Except.ok ls.length : Except Nat Nat))).2 = [] := by
  constructor
  · exact (temp_build_dir_lifecycle (BuildParameters.init "boost" none [] [] [] none [])
      false "tmp123" (fun _ => (Except.error 0 : Except Nat Nat))).1 rfl
  · exact ((temp_build_dir_lifecycle (BuildParameters.init "boost" (some "bdir") [] [] [] none [])
      false "tmp123" (fun ls => (Except.ok ls.length : Except Nat Nat))).2 "bdir" rfl).1

/-- C2 amended witness: two concrete argument lists built for distinct
(platform, configuration) pairs carry distinct --stagedir values. -/
theorem stagedir_injective_on_platform_configuration_witness :
    ((BuildParameters.init "boost" none [] [] [] none []).build_params "b"
        Platform.x86 Configuration.debug Linkage.static Linkage.static)[1]?
      ≠ ((BuildParameters.init "boost" none [] [] [] none []).build_params "b"
        Platform.x64 Configuration.debug Linkage.static Linkage.static)[1]? := by
  exact stagedir_injective_on_platform_configuration
    (BuildParameters.init "boost" none [] [] [] none []) "b" "b"
    Platform.x86 Platform.x64 Configuration.debug Configuration.debug
    Linkage.static Linkage.static Linkage.static Linkage.static rfl (by decide)

/-- C3: compiler-executable resolution.  On Linux the given name is returned
unchanged.  On other operating systems: the resolution raises the
executable-could-not-be-found error exactly when the search-path lookup
finds no executable for the name; when the lookup succeeds, a
directory-qualified name yields the fully qualified resolved path and an
unqualified name yields the basename of the resolved path (which carries the
executable extension). -/
theorem full_exe_name_resolution (env : ExeEnv) (exe : String) :
    (env.on_linux = true → full_exe_name env exe = Except.ok exe)
    ∧ (env.on_linux = false →
        (full_exe_name env exe
            = Except.error ("executable " ++ exe ++ " could not be found")
          ↔ env.which exe (dirOpt exe) = none))
    ∧ (env.on_linux = false → ∀ path, env.which exe (dirOpt exe) = some path →
        full_exe_name env exe =
          Except.ok (match dirOpt exe with
            | some _ => cygAdjust env path
            | none => basename (cygAdjust env path))) := by
  refine ⟨fun h => by simp [full_exe_name, h], fun h => ?_, fun h path hw => ?_⟩
  · unfold full_exe_name
    rw [h]
    cases hw : env.which exe (dirOpt exe) with
    | none => simp
    | some path =>
      simp only [Bool.false_eq_true, if_false, iff_false]
      cases hd : dirOpt exe <;> simp
  · unfold full_exe_name
    rw [h, hw]
    cases hd : dirOpt exe <;> simp

/-- C3 witness: concrete environments exercising each branch: Linux returns
the name as given; elsewhere a name found on the search path resolves to the
basename with its extension, a directory-qualified name resolves to the full
path, and an unfound name raises the not-found error. -/
theorem full_exe_name_resolution_witness :
    full_exe_name
        { on_linux := true, on_cygwin := false,
          which := fun _ _ => none, path_exists := fun _ => false } "g++"
      = Except.ok "g++"
    ∧ full_exe_name
        { on_linux := false, on_cygwin := false,
          which := fun _ _ => some "C:/MinGW/bin/g++.exe",
          path_exists := fun _ => false } "g++"
      = Except.ok "g++.exe"
    ∧ full_exe_name
        { on_linux := false, on_cygwin := false,
          which := fun _ _ => some "C:/MinGW/bin/g++.exe",
          path_exists := fun _ => false } "C:/MinGW/bin/g++"
      = Except.ok "C:/MinGW/bin/g++.exe"
    ∧ full_exe_name
        { on_linux := false, on_cygwin := false,
          which := fun _ _ => none, path_exists := fun _ => false } "g++"
      = Except.error "executable g++ could not be found" := by
  refine ⟨?_, ?_, ?_, ?_⟩
  · exact (full_exe_name_resolution
      { on_linux := true, on_cygwin := false,
        which := fun _ _ => none, path_exists := fun _ => false } "g++").1 rfl
  · exact (full_exe_name_resolution
      { on_linux := false, on_cygwin := false,
        which := fun _ _ => some "C:/MinGW/bin/g++.exe",
        path_exists := fun _ => false } "g++").2.2 rfl "C:/MinGW/bin/g++.exe" rfl
  · exact (full_exe_name_resolution
      { on_linux := false, on_cygwin := false,
        which := fun _ _ => some "C:/MinGW/bin/g++.exe",
        path_exists := fun _ => false } "C:/MinGW/bin/g++").2.2 rfl
        "C:/MinGW/bin/g++.exe" rfl
  · exact ((full_exe_name_resolution
      { on_linux := false, on_cygwin := false,
        which := fun _ _ => none, path_exists := fun _ => false } "g++").2.1 rfl).mpr rfl

/-- C6: for toolchain hint gcc and platform x64 (on an OS where the g++ name
resolves to itself, as on Linux), the generated toolchain-configuration file
names the g++ compiler and includes the fixed warning-suppression set
(-Wno-deprecated-declarations and -Wno-parentheses), and its contents are
identical for every configuration and linkage choice: the generation never
consumes either. -/
theorem gcc_config_file_content (env : ExeEnv) (c c2 : Configuration)
    (l l2 : Linkage) (h : env.on_linux = true) :
    GCC.config_file env Platform.x64 c l =
      Except.ok "using gcc : custom : g++ :\n    <cxxflags>-Wno-deprecated-declarations\n    <cxxflags>-Wno-parentheses\n;"
    ∧ GCC.config_file env Platform.x64 c l = GCC.config_file env Platform.x64 c2 l2
    ∧ hasInfix "g++".data
        "using gcc : custom : g++ :\n    <cxxflags>-Wno-deprecated-declarations\n    <cxxflags>-Wno-parentheses\n;".data
        = true
    ∧ hasInfix "-Wno-deprecated-declarations".data
        "using gcc : custom : g++ :\n    <cxxflags>-Wno-deprecated-declarations\n    <cxxflags>-Wno-parentheses\n;".data
        = true
    ∧ hasInfix "-Wno-parentheses".data
        "using gcc : custom : g++ :\n    <cxxflags>-Wno-deprecated-declarations\n    <cxxflags>-Wno-parentheses\n;".data
        = true := by
  have hc : GCC.config_file env Platform.x64 c l =
      Except.ok "using gcc : custom : g++ :\n    <cxxflags>-Wno-deprecated-declarations\n    <cxxflags>-Wno-parentheses\n;" := by
    simp [GCC.config_file, GCC.get_toolset, BoostBuildToolset.init,
      full_exe_name, h, GCC.format_config, BoostBuildToolset.format_using,
      BoostBuildToolset.format_using_options, GCC.get_options]
    rfl
  exact ⟨hc, rfl, by decide, by decide, by decide⟩

/-- C6 witness: a concrete Linux-like environment generates exactly the
expected gcc user-configuration contents. -/
theorem gcc_config_file_content_witness :
    GCC.config_file
        { on_linux := true, on_cygwin := false,
          which := fun _ _ => none, path_exists := fun _ => false }
        Platform.x64 Configuration.debug Linkage.static =
      Except.ok "using gcc : custom : g++ :\n    <cxxflags>-Wno-deprecated-declarations\n    <cxxflags>-Wno-parentheses\n;" := by
  exact (gcc_config_file_content
    { on_linux := true, on_cygwin := false,
      which := fun _ _ => none, path_exists := fun _ => false }
    Configuration.debug Configuration.release Linkage.static Linkage.shared rfl).1

/-- C5 fails as stated: under the clang-cl toolchain hint the Boost
toolchain strategy emits only the architecture flag, the clang-win toolset
selection and the Windows define; no emitted flag mentions the
--dependent-lib=libcmtd directive, at configuration debug in particular. -/
theorem clang_cl_lacks_dependent_lib :
    ClangCL.b2_args Platform.x64 Configuration.debug =
      ["address-model=64", "toolset=clang-win", "define=BOOST_USE_WINDOWS_H"]
    ∧ (ClangCL.b2_args Platform.x64 Configuration.debug).all
        (fun arg => !(hasInfix "--dependent-lib=libcmtd".data arg.data)) = true := by
  exact ⟨rfl, by decide⟩

/-- A substring of `s` is a substring of `a ++ s`. -/
theorem hasInfix_append_right (pattern a s : List Char)
    (h : hasInfix pattern s = true) : hasInfix pattern (a ++ s) = true := by
  induction a with
  | nil => simpa using h
  | cons c rest ih =>
    simp only [List.cons_append, hasInfix, Bool.or_eq_true]
    right
    exact ih

/-- A list is a substring of itself followed by anything. -/
theorem hasInfix_self_append (pattern b : List Char) :
    hasInfix pattern (pattern ++ b) = true := by
  cases hp : pattern ++ b with
  | nil =>
    have hpat : pattern = [] := (List.append_eq_nil.mp hp).1
    rw [hpat]
    rfl
  | cons c rest =>
    simp only [hasInfix, Bool.or_eq_true]
    left
    rw [← hp]
    exact List.isPrefixOf_iff_prefix.mpr (List.prefix_append pattern b)

/-- String-level substring witness: a decomposition of `s` around `pattern`
shows that `pattern` occurs in `s`. -/
theorem hasInfix_of_split (a pattern b s : String)
    (h : a ++ (pattern ++ b) = s) : hasInfix pattern.data s.data = true := by
  subst h
  rw [String.data_append, String.data_append]
  exact hasInfix_append_right _ _ _ (hasInfix_self_append _ _)

set_option maxRecDepth 100000 in
/-- C5 amended: the debug+static dependent-library directive naming libcmtd
is emitted by the clang toolchain hint, inside the generated user
configuration file, as one of four cxxflags variants keyed by the cross
product of debug/release and static/shared runtime linkage; the clang-cl
hint itself emits toolset=clang-win with no such directive. -/
theorem clang_config_has_dependent_lib_variants (t : BoostBuildToolset) :
    hasInfix "<runtime-link>static,<variant>debug:<cxxflags>\"-Xclang -flto-visibility-public-std -Xclang --dependent-lib=libcmtd\"".data
        (Clang.format_config t).data = true
    ∧ hasInfix "<runtime-link>static,<variant>release:<cxxflags>\"-Xclang -flto-visibility-public-std -Xclang --dependent-lib=libcmt\"".data
        (Clang.format_config t).data = true
    ∧ hasInfix "<runtime-link>shared,<variant>debug:<cxxflags>\"-D_DLL -Xclang --dependent-lib=msvcrtd\"".data
        (Clang.format_config t).data = true
    ∧ hasInfix "<runtime-link>shared,<variant>release:<cxxflags>\"-D_DLL -Xclang --dependent-lib=msvcrt\"".data
        (Clang.format_config t).data = true := by
  have base : ∀ pattern : String,
      hasInfix pattern.data Clang.requirements_block.data = true →
      hasInfix pattern.data (Clang.format_config t).data = true := by
    intro pattern hp
    unfold Clang.format_config
    rw [String.data_append, String.data_append]
    exact hasInfix_append_left _ _ _ (hasInfix_append_left _ _ _ hp)
  refine ⟨base _ ?_, base _ ?_, base _ ?_, base _ ?_⟩
  · exact hasInfix_of_split
      "project : requirements\n    <target-os>windows:<define>_MT\n    <target-os>windows,<variant>debug:<define>_DEBUG\n    <target-os>windows,"
      "<runtime-link>static,<variant>debug:<cxxflags>\"-Xclang -flto-visibility-public-std -Xclang --dependent-lib=libcmtd\""
      "\n    <target-os>windows,<runtime-link>static,<variant>release:<cxxflags>\"-Xclang -flto-visibility-public-std -Xclang --dependent-lib=libcmt\"\n    <target-os>windows,<runtime-link>shared,<variant>debug:<cxxflags>\"-D_DLL -Xclang --dependent-lib=msvcrtd\"\n    <target-os>windows,<runtime-link>shared,<variant>release:<cxxflags>\"-D_DLL -Xclang --dependent-lib=msvcrt\"\n;\n"
      Clang.requirements_block rfl
  · exact hasInfix_of_split
      "project : requirements\n    <target-os>windows:<define>_MT\n    <target-os>windows,<variant>debug:<define>_DEBUG\n    <target-os>windows,<runtime-link>static,<variant>debug:<cxxflags>\"-Xclang -flto-visibility-public-std -Xclang --dependent-lib=libcmtd\"\n    <target-os>windows,"
      "<runtime-link>static,<variant>release:<cxxflags>\"-Xclang -flto-visibility-public-std -Xclang --dependent-lib=libcmt\""
      "\n    <target-os>windows,<runtime-link>shared,<variant>debug:<cxxflags>\"-D_DLL -Xclang --dependent-lib=msvcrtd\"\n    <target-os>windows,<runtime-link>shared,<variant>release:<cxxflags>\"-D_DLL -Xclang --dependent-lib=msvcrt\"\n;\n"
      Clang.requirements_block rfl
  · exact hasInfix_of_split
      "project : requirements\n    <target-os>windows:<define>_MT\n    <target-os>windows,<variant>debug:<define>_DEBUG\n    <target-os>windows,<runtime-link>static,<variant>debug:<cxxflags>\"-Xclang -flto-visibility-public-std -Xclang --dependent-lib=libcmtd\"\n    <target-os>windows,<runtime-link>static,<variant>release:<cxxflags>\"-Xclang -flto-visibility-public-std -Xclang --dependent-lib=libcmt\"\n    <target-os>windows,"
      "<runtime-link>shared,<variant>debug:<cxxflags>\"-D_DLL -Xclang --dependent-lib=msvcrtd\""
      "\n    <target-os>windows,<runtime-link>shared,<variant>release:<cxxflags>\"-D_DLL -Xclang --dependent-lib=msvcrt\"\n;\n"
      Clang.requirements_block rfl
  · exact hasInfix_of_split
      "project : requirements\n    <target-os>windows:<define>_MT\n    <target-os>windows,<variant>debug:<define>_DEBUG\n    <target-os>windows,<runtime-link>static,<variant>debug:<cxxflags>\"-Xclang -flto-visibility-public-std -Xclang --dependent-lib=libcmtd\"\n    <target-os>windows,<runtime-link>static,<variant>release:<cxxflags>\"-Xclang -flto-visibility-public-std -Xclang --dependent-lib=libcmt\"\n    <target-os>windows,<runtime-link>shared,<variant>debug:<cxxflags>\"-D_DLL -Xclang --dependent-lib=msvcrtd\"\n    <target-os>windows,"
      "<runtime-link>shared,<variant>release:<cxxflags>\"-D_DLL -Xclang --dependent-lib=msvcrt\""
      "\n;\n"
      Clang.requirements_block rfl

/-- A successful image parse means the input was the string value of the
recognized image. -/
theorem parse_image_ok (s : String) (img : Image)
    (h : parse_image s = Except.ok img) : s = img.toStr := by
  unfold parse_image at h
  by_cases h1 : s = Image.vs2013.toStr
  · rw [if_pos h1] at h
    simp only [Except.ok.injEq] at h
    rw [h1, ← h]
  · rw [if_neg h1] at h
    by_cases h2 : s = Image.vs2015.toStr
    · rw [if_pos h2] at h
      simp only [Except.ok.injEq] at h
      rw [h2, ← h]
    · rw [if_neg h2] at h
      by_cases h3 : s = Image.vs2017.toStr
      · rw [if_pos h3] at h
        simp only [Except.ok.injEq] at h
        rw [h3, ← h]
      · rw [if_neg h3] at h
        by_cases h4 : s = Image.vs2019.toStr
        · rw [if_pos h4] at h
          simp only [Except.ok.injEq] at h
          rw [h4, ← h]
        · rw [if_neg h4] at h
          exact absurd h (by simp)

/-- A successful platform parse means the input was the string value of the
recognized platform. -/
theorem parse_platform_ok (s : String) (p : AVPlatform)
    (h : parse_platform s = Except.ok p) : s = p.toStr := by
  unfold parse_platform at h
  by_cases h1 : s = AVPlatform.x86.toStr
  · rw [if_pos h1] at h
    simp only [Except.ok.injEq] at h
    rw [h1, ← h]
  · rw [if_neg h1] at h
    by_cases h2 : s = AVPlatform.x64.toStr
    · rw [if_pos h2] at h
      simp only [Except.ok.injEq] at h
      rw [h2, ← h]
    · rw [if_neg h2] at h
      exact absurd h (by simp)

/-- C8: the AppVeyor adapter fails with a fatal error, before invoking any
build step, whenever any of the required environment variables (APPVEYOR,
APPVEYOR_BUILD_FOLDER, APPVEYOR_BUILD_WORKER_IMAGE, PLATFORM, CONFIGURATION)
is absent or the worker-image identifier is not one of the four recognized
Visual Studio images; and when the adapter does reach the build step, the
image and platform identifiers were translated through the fixed lookup
tables into the generator and architecture arguments of the assembled
command line. -/
theorem appveyor_fails_before_build (env : Env) (install : Option String)
    (cargs : List String) :
    (((env "APPVEYOR" = none ∨ env "APPVEYOR_BUILD_FOLDER" = none
        ∨ env "APPVEYOR_BUILD_WORKER_IMAGE" = none ∨ env "PLATFORM" = none
        ∨ env "CONFIGURATION" = none)
      ∨ ∃ s, env "APPVEYOR_BUILD_WORKER_IMAGE" = some s ∧ ∀ i : Image, i.toStr ≠ s) →
      ∃ e, build_appveyor env install cargs = Except.error e)
    ∧ ∀ out, build_appveyor env install cargs = Except.ok out →
        ∃ (a src cfg : String) (img : Image) (plat : AVPlatform),
          env "APPVEYOR" = some a
          ∧ env "APPVEYOR_BUILD_FOLDER" = some src
          ∧ env "APPVEYOR_BUILD_WORKER_IMAGE" = some img.toStr
          ∧ env "PLATFORM" = some plat.toStr
          ∧ env "CONFIGURATION" = some cfg
          ∧ out = ["--build", "C:\\Projects\\build", "--configuration", cfg]
              ++ (match install with
                  | some d => ["--install", d]
                  | none => [])
              ++ ["--", src, "-G", (Generator.from_image img).toStr, "-A",
                  plat.toStr]
              ++ cargs := by
  have succ : ∀ out, build_appveyor env install cargs = Except.ok out →
      ∃ (a src cfg : String) (img : Image) (plat : AVPlatform),
        env "APPVEYOR" = some a
        ∧ env "APPVEYOR_BUILD_FOLDER" = some src
        ∧ env "APPVEYOR_BUILD_WORKER_IMAGE" = some img.toStr
        ∧ env "PLATFORM" = some plat.toStr
        ∧ env "CONFIGURATION" = some cfg
        ∧ out = ["--build", "C:\\Projects\\build", "--configuration", cfg]
            ++ (match install with
                | some d => ["--install", d]
                | none => [])
            ++ ["--", src, "-G", (Generator.from_image img).toStr, "-A",
                plat.toStr]
            ++ cargs := by
    intro out hres
    unfold build_appveyor at hres
    cases hA : env "APPVEYOR" with
    | none => simp [check_appveyor, hA, bind, Except.bind] at hres
    | some a =>
    simp only [check_appveyor, hA, bind, Except.bind] at hres
    cases hC : env "CONFIGURATION" with
    | none => simp [env_get, hC, bind, Except.bind] at hres
    | some cfg =>
    simp only [env_get, hC, bind, Except.bind] at hres
    cases hF : env "APPVEYOR_BUILD_FOLDER" with
    | none => simp [env_get, hF, bind, Except.bind] at hres
    | some src =>
    simp only [env_get, hF, bind, Except.bind] at hres
    cases hI : env "APPVEYOR_BUILD_WORKER_IMAGE" with
    | none => simp [env_get, hI, bind, Except.bind] at hres
    | some simg =>
    simp only [env_get, hI, bind, Except.bind] at hres
    cases hpi : parse_image simg with
    | error e => simp [hpi, bind, Except.bind] at hres
    | ok img =>
    simp only [hpi, bind, Except.bind] at hres
    cases hP : env "PLATFORM" with
    | none => simp [env_get, hP, bind, Except.bind] at hres
    | some splat =>
    simp only [env_get, hP, bind, Except.bind] at hres
    cases hpp : parse_platform splat with
    | error e => simp [hpp, bind, Except.bind, Functor.map, Except.map] at hres
    | ok plat =>
    simp only [hpp, bind, Except.bind, Functor.map, Except.map, pure,
      Except.pure, Except.ok.injEq] at hres
    refine ⟨a, src, cfg, img, plat, rfl, rfl,
      by rw [parse_image_ok simg img hpi],
      by rw [parse_platform_ok splat plat hpp], rfl, hres.symm⟩
  refine ⟨?_, succ⟩
  intro hyp
  cases hres : build_appveyor env install cargs with
  | error e => exact ⟨e, rfl⟩
  | ok out =>
    exfalso
    obtain ⟨a, src, cfg, img, plat, hA, hF, hI, hP, hC, _⟩ := succ out hres
    rcases hyp with (h | h | h | h | h) | ⟨s, hs, hall⟩
    · rw [hA] at h; exact Option.noConfusion h
    · rw [hF] at h; exact Option.noConfusion h
    · rw [hI] at h; exact Option.noConfusion h
    · rw [hP] at h; exact Option.noConfusion h
    · rw [hC] at h; exact Option.noConfusion h
    · rw [hI] at hs
      exact hall img (Option.some.injEq _ _ ▸ hs.symm ▸ rfl)

/-- C8 witness: a concrete environment missing a required variable fails, a
concrete environment with an unrecognized worker image fails, and a concrete
fully populated environment reaches the build step with the translated
generator and architecture arguments. -/
theorem appveyor_fails_before_build_witness :
    (∃ e, build_appveyor (fun n => if n = "APPVEYOR" then some "True" else none)
        none [] = Except.error e)
    ∧ (∃ e, build_appveyor
        (fun n =>
          if n = "APPVEYOR" then some "True"
          else if n = "APPVEYOR_BUILD_FOLDER" then some "C:/projects/x"
          else if n = "APPVEYOR_BUILD_WORKER_IMAGE" then some "Ubuntu"
          else if n = "PLATFORM" then some "x64"
          else if n = "CONFIGURATION" then some "Release"
          else none)
        none [] = Except.error e)
    ∧ ∃ (a src cfg : String) (img : Image) (plat : AVPlatform),
        (fun n =>
          if n = "APPVEYOR" then some "True"
          else if n = "APPVEYOR_BUILD_FOLDER" then some "C:/projects/x"
          else if n = "APPVEYOR_BUILD_WORKER_IMAGE" then some "Visual Studio 2019"
          else if n = "PLATFORM" then some "Win32"
          else if n = "CONFIGURATION" then some "Release"
          else (none : Option String)) "APPVEYOR" = some a
        ∧ (fun n =>
          if n = "APPVEYOR" then some "True"
          else if n = "APPVEYOR_BUILD_FOLDER" then some "C:/projects/x"
          else if n = "APPVEYOR_BUILD_WORKER_IMAGE" then some "Visual Studio 2019"
          else if n = "PLATFORM" then some "Win32"
          else if n = "CONFIGURATION" then some "Release"
          else (none : Option String)) "APPVEYOR_BUILD_FOLDER" = some src
        ∧ (fun n =>
          if n = "APPVEYOR" then some "True"
          else if n = "APPVEYOR_BUILD_FOLDER" then some "C:/projects/x"
          else if n = "APPVEYOR_BUILD_WORKER_IMAGE" then some "Visual Studio 2019"
          else if n = "PLATFORM" then some "Win32"
          else if n = "CONFIGURATION" then some "Release"
          else (none : Option String)) "APPVEYOR_BUILD_WORKER_IMAGE" = some img.toStr
        ∧ (fun n =>
          if n = "APPVEYOR" then some "True"
          else if n = "APPVEYOR_BUILD_FOLDER" then some "C:/projects/x"
          else if n = "APPVEYOR_BUILD_WORKER_IMAGE" then some "Visual Studio 2019"
          else if n = "PLATFORM" then some "Win32"
          else if n = "CONFIGURATION" then some "Release"
          else (none : Option String)) "PLATFORM" = some plat.toStr
        ∧ (fun n =>
          if n = "APPVEYOR" then some "True"
          else if n = "APPVEYOR_BUILD_FOLDER" then some "C:/projects/x"
          else if n = "APPVEYOR_BUILD_WORKER_IMAGE" then some "Visual Studio 2019"
          else if n = "PLATFORM" then some "Win32"
          else if n = "CONFIGURATION" then some "Release"
          else (none : Option String)) "CONFIGURATION" = some cfg
        ∧ ["--build", "C:\\Projects\\build", "--configuration", "Release",
           "--", "C:/projects/x", "-G", "Visual Studio 16 2019", "-A", "Win32"]
            = ["--build", "C:\\Projects\\build", "--configuration", cfg]
              ++ (match (none : Option String) with
                  | some d => ["--install", d]
                  | none => [])
              ++ ["--", src, "-G", (Generator.from_image img).toStr, "-A",
                  plat.toStr]
              ++ [] := by
  refine ⟨?_, ?_, ?_⟩
  · exact (appveyor_fails_before_build
      (fun n => if n = "APPVEYOR" then some "True" else none) none []).1
      (Or.inl (Or.inr (Or.inl rfl)))
  · exact (appveyor_fails_before_build _ none []).1
      (Or.inr ⟨"Ubuntu", rfl, by intro i; cases i <;> decide⟩)
  · exact (appveyor_fails_before_build
      (fun n =>
        if n = "APPVEYOR" then some "True"
        else if n = "APPVEYOR_BUILD_FOLDER" then some "C:/projects/x"
        else if n = "APPVEYOR_BUILD_WORKER_IMAGE" then some "Visual Studio 2019"
        else if n = "PLATFORM" then some "Win32"
        else if n = "CONFIGURATION" then some "Release"
        else (none : Option String)) none []).2
      ["--build", "C:\\Projects\\build", "--configuration", "Release",
       "--", "C:/projects/x", "-G", "Visual Studio 16 2019", "-A", "Win32"] rfl

end CmakeCommon
